import Mathlib

/-!
Shallow embedding of the Oracyn backend (oracyn-backend): the Prisma-backed
data model (User, Chat, Message, Document), the chat orchestrator
(sendMessage / submitQuery / generateAIResponse from
src/controllers/chatController.js), the upload path
(src/controllers/uploadController.js, src/middleware/uploadMiddleware.js,
src/middleware/errorHandler.js), the fire-and-forget revision of the
orchestrator (addMessage / uploadDocumentAndTriggerWorkflow), the auth
middleware (authenticate / optionalAuth with utils/jwt.js) and the
account-deactivation route.  Database writes are modelled as pure state
transitions on an explicit store; the external AI client and the object
store are modelled by their outcome (success payload or transport failure),
which is how the orchestrator observes them.
-/

namespace Oracyn

/-- a character that is quoted in source text -/
def apos : String := String.singleton (Char.ofNat 39)

/-! ## Data model (prisma schema) -/

structure User where
  id : Nat
  email : String
  username : String
  isActive : Bool
  isVerified : Bool
  updatedAt : Nat
  deriving Repr, DecidableEq

structure Chat where
  id : Nat
  userId : Nat
  title : String
  state : String
  status : String
  updatedAt : Nat
  deriving Repr, DecidableEq

structure Message where
  chatId : Nat
  sender : String
  content : String
  msgType : String
  deriving Repr, DecidableEq

structure Document where
  chatId : Nat
  name : String
  filePath : String
  size : Nat
  mimeType : String
  processed : Bool
  uploadedAt : Nat
  deriving Repr, DecidableEq

/-- the relational store: rows in insertion order -/
structure DB where
  users : List User
  chats : List Chat
  messages : List Message
  documents : List Document
  deriving Repr, DecidableEq

/-- prisma.chat.findFirst with where id and userId: the ownership check -/
def findFirstChat (db : DB) (id userId : Nat) : Option Chat :=
  db.chats.find? (fun c => c.id == id && c.userId == userId)

/-- prisma.document.findMany with where chatId -/
def docsOfChat (db : DB) (chatId : Nat) : List Document :=
  db.documents.filter (fun d => d.chatId == chatId)

/-- prisma.message.create: appends a row -/
def createMessage (db : DB) (m : Message) : DB :=
  { db with messages := db.messages ++ [m] }

/-- prisma.chat.update with where id -/
def updateChatRow (db : DB) (id : Nat) (f : Chat → Chat) : DB :=
  { db with chats := db.chats.map (fun c => if c.id == id then f c else c) }

/-! ## External AI client (services/aiService.js as seen by the orchestrator)

The orchestrator observes the client only through its outcome: a parsed
response object, or a caught error (transport failure, timeout, non-2xx all
surface as one rejected promise).  Float rendering (toFixed) is carried as
the already-rendered string. -/

structure AISource where
  fileName : String
  relevancePct : String
  deriving Repr, DecidableEq

structure AIAnswer where
  answer : String
  sources : List AISource
  confidencePct : Option String
  deriving Repr, DecidableEq

inductive AIOutcome where
  | success (r : AIAnswer)
  | failure (errMessage : String)
  deriving Repr, DecidableEq

def formatSourceLine (i : Nat) (s : AISource) : String :=
  toString (i + 1) ++ ". " ++ s.fileName ++ " (Relevance: " ++ s.relevancePct ++ "%)\n"

/-- the success branch of generateAIResponse: answer, then a source list when
non-empty, then a confidence line when present -/
def formatSuccess (r : AIAnswer) : String :=
  let withSources :=
    if r.sources.length > 0 then
      r.answer ++ ("\n\n**Sources:**\n" ++
        String.join ((r.sources.enum.map (fun p => formatSourceLine p.1 p.2))))
    else r.answer
  match r.confidencePct with
  | some c => withSources ++ ("\n*Confidence: " ++ (c ++ "%*"))
  | none => withSources

/-- first sentence of the fallback reply of generateAIResponse -/
def apologyIntro : String :=
  "I apologize, but I" ++ apos ++
    "m currently experiencing technical difficulties processing your question. "

def fallbackDocLine (d : Document) : String :=
  "• " ++ d.name ++ " (" ++ (if d.processed then "Processed" else "Processing...") ++ ")"

/-- the catch branch of generateAIResponse: the fixed apology, the chat's
document list, and the caught error message -/
def fallbackText (docs : List Document) (errMessage : String) : String :=
  apologyIntro ++
    ("\n\n**Your uploaded documents:**\n" ++
      (String.intercalate "\n" (docs.map fallbackDocLine) ++
        ("\n\nPlease try again in a moment. If the issue persists, please contact support.\n\n*Error: " ++
          (errMessage ++ "*"))))

/-- generateAIResponse (chatController.js, AI-service revision): try the AI
client and format its answer; on any client failure catch locally and return
the apology built from the chat's documents.  It never rethrows. -/
def generateAIResponse (db : DB) (ai : AIOutcome) (chatId : Nat) : String :=
  match ai with
  | .success r => formatSuccess r
  | .failure e => fallbackText (docsOfChat db chatId) e

/-! ## Chat orchestrator (chatController.js) -/

inductive SendResult where
  | badRequest
  | notFound
  | ok (userMessage assistantMessage : Message)
  deriving Repr, DecidableEq

/-- sendMessage: 400 when content is falsy, 404 when the chat does not resolve
for the caller; otherwise persist the user message, obtain the AI text (real or
fallback), persist the assistant message, and bump the chat to state CHAT with
a fresh updatedAt. -/
def sendMessage (db : DB) (callerId id : Nat) (content msgType : String)
    (ai : AIOutcome) (now : Nat) : SendResult × DB :=
  if content = "" then (.badRequest, db)
  else
    match findFirstChat db id callerId with
    | none => (.notFound, db)
    | some _ =>
      let userMessage : Message := ⟨id, "USER", content, msgType⟩
      let db1 := createMessage db userMessage
      let assistantMessage : Message :=
        ⟨id, "ASSISTANT", generateAIResponse db1 ai id, "RESPONSE"⟩
      let db2 := createMessage db1 assistantMessage
      let db3 := updateChatRow db2 id (fun c => { c with updatedAt := now, state := "CHAT" })
      (.ok userMessage assistantMessage, db3)

/-- submitQuery: same orchestration with the user row typed QUERY -/
def submitQuery (db : DB) (callerId id : Nat) (prompt : String)
    (ai : AIOutcome) (now : Nat) : SendResult × DB :=
  if prompt = "" then (.badRequest, db)
  else
    match findFirstChat db id callerId with
    | none => (.notFound, db)
    | some _ =>
      let queryMessage : Message := ⟨id, "USER", prompt, "QUERY"⟩
      let db1 := createMessage db queryMessage
      let responseMessage : Message :=
        ⟨id, "ASSISTANT", generateAIResponse db1 ai id, "RESPONSE"⟩
      let db2 := createMessage db1 responseMessage
      let db3 := updateChatRow db2 id (fun c => { c with updatedAt := now, state := "CHAT" })
      (.ok queryMessage responseMessage, db3)

inductive GetMessagesResult where
  | notFound
  | ok (messages : List Message) (documents : List Document) (chatState : String)
  deriving Repr, DecidableEq

/-- getChatMessages: read-only listing behind the ownership check -/
def getChatMessages (db : DB) (callerId id : Nat) : GetMessagesResult × DB :=
  match findFirstChat db id callerId with
  | none => (.notFound, db)
  | some chat =>
    (.ok (db.messages.filter (fun m => m.chatId == id)) (docsOfChat db id) chat.state, db)

/-- JavaScript `x || y` on an optional string field: an absent field and the
empty string are both falsy and keep `y` -/
def jsOr (x : Option String) (y : String) : String :=
  match x with
  | none => y
  | some s => if s = "" then y else s

inductive UpdateChatResult where
  | notFound
  | ok (chat : Chat)
  deriving Repr, DecidableEq

/-- updateChat: each supplied truthy field overwrites, each falsy field keeps
the stored value, updatedAt always refreshed -/
def updateChat (db : DB) (callerId id : Nat)
    (status title state : Option String) (now : Nat) : UpdateChatResult × DB :=
  match findFirstChat db id callerId with
  | none => (.notFound, db)
  | some chat =>
    let updated : Chat :=
      { chat with
          status := jsOr status chat.status,
          title := jsOr title chat.title,
          state := jsOr state chat.state,
          updatedAt := now }
    (.ok updated, { db with chats := db.chats.map (fun c => if c.id == id then updated else c) })

inductive DeleteChatResult where
  | notFound
  | deleted
  deriving Repr, DecidableEq

/-- deleteChat: the prisma schema cascades the delete to the chat's messages
and documents -/
def deleteChat (db : DB) (callerId id : Nat) : DeleteChatResult × DB :=
  match findFirstChat db id callerId with
  | none => (.notFound, db)
  | some _ =>
    (.deleted,
      { db with
          chats := db.chats.filter (fun c => !(c.id == id)),
          messages := db.messages.filter (fun m => !(m.chatId == id)),
          documents := db.documents.filter (fun d => !(d.chatId == id)) })

/-! ## Upload path (uploadController.js, uploadMiddleware.js, errorHandler.js) -/

structure UploadedFile where
  originalname : String
  mimetype : String
  size : Nat
  deriving Repr, DecidableEq

inductive UploadFileResult where
  | badRequest
  | forbidden
  | ok (document : Document)
  | uploadFailed
  deriving Repr, DecidableEq

/-- uploadFile (uploadController.js): 400 when the file or the parsed chat id
is falsy (0 is falsy), 403 when the chat does not resolve for the caller;
otherwise put the buffer to the object store, create the document row
(processed false) and bump the chat timestamp.  A failed store put is caught
as a 500 with nothing written. -/
def uploadFile (db : DB) (callerId : Nat) (file : Option UploadedFile) (chatId : Nat)
    (storeOk : Bool) (location : String) (now : Nat) : UploadFileResult × DB :=
  match file with
  | none => (.badRequest, db)
  | some f =>
    if chatId = 0 then (.badRequest, db)
    else
      match findFirstChat db chatId callerId with
      | none => (.forbidden, db)
      | some _ =>
        if storeOk then
          let document : Document :=
            ⟨chatId, f.originalname, location, f.size, f.mimetype, false, now⟩
          let db1 := { db with documents := db.documents ++ [document] }
          let db2 := updateChatRow db1 chatId (fun c => { c with updatedAt := now })
          (.ok document, db2)
        else (.uploadFailed, db)

structure ApiError where
  message : String
  statusCode : Nat
  code : String
  deriving Repr, DecidableEq

/-- handleMulterError (errorHandler.js): maps a MulterError code to the 400
ApiError the global handler responds with -/
def handleMulterError (c : String) : ApiError :=
  if c = "LIMIT_FILE_SIZE" then ⟨"File size is too large.", 400, "FILE_TOO_LARGE"⟩
  else if c = "LIMIT_FILE_COUNT" then ⟨"Too many files uploaded.", 400, "TOO_MANY_FILES"⟩
  else if c = "LIMIT_UNEXPECTED_FILE" then ⟨"Unexpected file field.", 400, "UNEXPECTED_FILE"⟩
  else if c = "LIMIT_PART_COUNT" then ⟨"Too many parts in the request.", 400, "TOO_MANY_PARTS"⟩
  else ⟨"File upload error.", 400, "UPLOAD_ERROR"⟩

/-- limits.fileSize of the multer instance (uploadMiddleware.js) -/
def multerFileSizeLimit : Nat := 15000000

inductive UploadRouteResult where
  | multerRejected (e : ApiError)
  | handled (r : UploadFileResult)
  deriving Repr, DecidableEq

/-- Modelled from the spec: the multer middleware itself is library code, not
in this repository; per the spec a maximum byte size is enforced before the
controller.  The route chains the configured multer instance
(memoryStorage, limits.fileSize = 15000000) before uploadFile: a file over
the limit aborts with MulterError LIMIT_FILE_SIZE, which the global error
handler turns into handleMulterError's 400 response, and only otherwise does
the buffered file reach the controller. -/
def uploadRoute (db : DB) (callerId : Nat) (f : UploadedFile) (chatId : Nat)
    (storeOk : Bool) (location : String) (now : Nat) : UploadRouteResult × DB :=
  if f.size > multerFileSizeLimit then
    (.multerRejected (handleMulterError "LIMIT_FILE_SIZE"), db)
  else
    let r := uploadFile db callerId (some f) chatId storeOk location now
    (.handled r.1, r.2)

/-! ## Fire-and-forget revision (unnamed chatController: addMessage and
uploadDocumentAndTriggerWorkflow)

This revision keys chats by string cuid, stores messages as text/sender rows,
keeps uploaded files on the local filesystem (disk is the list of paths
present), and calls the AI service over plain REST. -/

structure PChat where
  id : String
  userId : String
  deriving Repr, DecidableEq

structure PMessage where
  text : String
  sender : String
  chatId : String
  deriving Repr, DecidableEq

structure PDocument where
  fileName : String
  filePath : String
  fileType : String
  fileSize : Nat
  chatId : String
  userId : String
  deriving Repr, DecidableEq

structure PState where
  chats : List PChat
  messages : List PMessage
  documents : List PDocument
  disk : List String
  deriving Repr, DecidableEq

def pFindFirstChat (st : PState) (id userId : String) : Option PChat :=
  st.chats.find? (fun c => c.id == id && c.userId == userId)

/-- outcome of the axios call to the AI service -/
inductive RestAIOutcome where
  | success (answer : String)
  | failure (errMessage : String)
  deriving Repr, DecidableEq

/-- the fixed fallback text the catch continuation persists -/
def fallbackUnavailable : String := "Sorry, the AI assistant is currently unavailable."

inductive AddMessageResult where
  | notFound
  | created (userMessage : PMessage)
  deriving Repr, DecidableEq

/-- addMessage: 404 on the ownership check; otherwise save the user message,
respond 201 with it at once, and let a detached continuation save either the
AI answer or the fixed fallback.  The returned state is the store after the
continuation has run. -/
def addMessage (st : PState) (callerId chatId text : String)
    (ai : RestAIOutcome) : AddMessageResult × PState :=
  match pFindFirstChat st chatId callerId with
  | none => (.notFound, st)
  | some _ =>
    let userMessage : PMessage := ⟨text, "user", chatId⟩
    let st1 := { st with messages := st.messages ++ [userMessage] }
    let assistantText :=
      match ai with
      | .success answer => answer
      | .failure _ => fallbackUnavailable
    let st2 := { st1 with messages := st1.messages ++ [⟨assistantText, "assistant", chatId⟩] }
    (.created userMessage, st2)

structure PFile where
  path : String
  originalname : String
  mimetype : String
  size : Nat
  deriving Repr, DecidableEq

inductive UploadWorkflowResult where
  | badRequest
  | notFound
  | processed (d : PDocument)
  | processFailed
  deriving Repr, DecidableEq

/-- uploadDocumentAndTriggerWorkflow: the multer disk storage has already
written the file at f.path when the handler runs.  400 when no file came;
when the ownership check fails the temporary file is unlinked before the 404
returns; otherwise the document row is created and the AI service is awaited,
a failure there answering 500 with the row and the file left in place. -/
def uploadDocumentAndTriggerWorkflow (st : PState) (callerId chatId : String)
    (file : Option PFile) (aiOk : Bool) : UploadWorkflowResult × PState :=
  match file with
  | none => (.badRequest, st)
  | some f =>
    match pFindFirstChat st chatId callerId with
    | none => (.notFound, { st with disk := st.disk.erase f.path })
    | some _ =>
      let d : PDocument := ⟨f.originalname, f.path, f.mimetype, f.size, chatId, callerId⟩
      let st1 := { st with documents := st.documents ++ [d] }
      if aiOk then (.processed d, st1) else (.processFailed, st1)

/-! ## Auth middleware (unnamed middleware/auth.js with utils/jwt.js) -/

structure JwtPayload where
  userId : Nat
  deriving Repr, DecidableEq

/-- what jwt.verify reports for a presented token -/
inductive VerifyOutcome where
  | valid (payload : JwtPayload)
  | malformed
  | expired
  deriving Repr, DecidableEq

/-- verifyAccessToken (utils/jwt.js): any jwt.verify failure is rethrown as a
plain Error whose message only embeds the library text - the error class
distinguishing JsonWebTokenError from TokenExpiredError is not preserved -/
def verifyAccessToken (o : VerifyOutcome) : Except String JwtPayload :=
  match o with
  | .valid p => .ok p
  | .malformed => .error ("Invalid access token: " ++ "jwt malformed")
  | .expired => .error ("Invalid access token: " ++ "jwt expired")

def findUserById (db : DB) (id : Nat) : Option User :=
  db.users.find? (fun u => u.id == id)

/-- a middleware either responds with a status and error code or calls next,
possibly having attached an identity to the request -/
inductive AuthOutcome where
  | reject (status : Nat) (code : String)
  | next (identity : Option User)
  deriving Repr, DecidableEq

/-- authenticate: NO_TOKEN without a token; INVALID_TOKEN whenever
verifyAccessToken throws (whatever the cause); then the user must exist and
be active, and is attached to the request -/
def authenticate (db : DB) (tok : Option VerifyOutcome) : AuthOutcome :=
  match tok with
  | none => .reject 401 "NO_TOKEN"
  | some o =>
    match verifyAccessToken o with
    | .error _ => .reject 401 "INVALID_TOKEN"
    | .ok p =>
      match findUserById db p.userId with
      | none => .reject 401 "USER_NOT_FOUND"
      | some u =>
        if u.isActive then .next (some u)
        else .reject 401 "ACCOUNT_DEACTIVATED"

/-- optionalAuth: continues in every case, attaching the identity only when
the token verifies and resolves to an active user -/
def optionalAuth (db : DB) (tok : Option VerifyOutcome) : AuthOutcome :=
  match tok with
  | none => .next none
  | some o =>
    match verifyAccessToken o with
    | .error _ => .next none
    | .ok p =>
      match findUserById db p.userId with
      | none => .next none
      | some u => if u.isActive then .next (some u) else .next none

/-- handleJWTError (errorHandler.js): distinct codes per jwt error class when
a raw jwt error reaches the global error handler -/
def handleJWTError (name : String) : ApiError :=
  if name = "JsonWebTokenError" then ⟨"Invalid authentication token.", 401, "INVALID_TOKEN"⟩
  else if name = "TokenExpiredError" then
    ⟨"Authentication token has expired.", 401, "TOKEN_EXPIRED"⟩
  else if name = "NotBeforeError" then
    ⟨"Authentication token is not active yet.", 401, "TOKEN_NOT_ACTIVE"⟩
  else ⟨"Authentication error.", 401, "AUTH_ERROR"⟩

/-! ## Account deactivation (unnamed auth routes, DELETE /api/auth/account) -/

/-- the soft delete: isActive is cleared and the unique email/username are
overwritten with deleted_<Date.now()>_<old value>; no row is removed -/
def deactivateAccount (db : DB) (uid nowMs : Nat) : DB :=
  { db with
      users := db.users.map (fun u =>
        if u.id == uid then
          { u with
              isActive := false,
              email := "deleted_" ++ (toString nowMs ++ ("_" ++ u.email)),
              username := "deleted_" ++ (toString nowMs ++ ("_" ++ u.username)),
              updatedAt := nowMs }
        else u) }

/-! ## Derived counts and sample data for concrete checks -/

/-- persisted user-authored rows of a chat -/
def userMessageCount (db : DB) (chatId : Nat) : Nat :=
  (db.messages.filter (fun m => m.sender == "USER" && m.chatId == chatId)).length

/-- persisted user-authored rows of a chat in the fire-and-forget revision -/
def pUserMessageCount (st : PState) (chatId : String) : Nat :=
  (st.messages.filter (fun m => m.sender == "user" && m.chatId == chatId)).length

def sampleUser : User := ⟨1, "u@example.com", "u1", true, true, 0⟩

def sampleChat : Chat := ⟨1, 1, "Q4 Report", "UPLOAD", "NONE", 0⟩

def sampleDB : DB := ⟨[sampleUser], [sampleChat], [], []⟩

def emptyDB : DB := ⟨[], [], [], []⟩

def sampleFile : UploadedFile := ⟨"a.pdf", "application/pdf", 100⟩

def samplePState : PState := ⟨[⟨"c1", "u1"⟩], [], [], ["/tmp/up1"]⟩

def samplePFile : PFile := ⟨"/tmp/up1", "a.pdf", "application/pdf", 100⟩

/-! ## General lemmas about the store -/

/-- a message insert does not change which documents a chat has -/
@[simp] theorem docsOfChat_update_messages (db : DB) (ms : List Message) (id : Nat) :
    docsOfChat { db with messages := ms } id = docsOfChat db id := rfl

theorem findFirstChat_eq_some {db : DB} {id uid : Nat} {c : Chat}
    (h : findFirstChat db id uid = some c) :
    c ∈ db.chats ∧ c.id = id ∧ c.userId = uid := by
  unfold findFirstChat at h
  have hm := List.mem_of_find?_eq_some h
  have hp := List.find?_some h
  simp only [Bool.and_eq_true, beq_iff_eq] at hp
  exact ⟨hm, hp.1, hp.2⟩

theorem updateChatRow_mem {db : DB} {id : Nat} {f : Chat → Chat} {c : Chat}
    (hc : c ∈ db.chats) (hid : c.id = id) : f c ∈ (updateChatRow db id f).chats := by
  have hm := List.mem_map_of_mem
    (f := fun x : Chat => if x.id == id then f x else x) hc
  simpa [updateChatRow, hid] using hm

theorem updateChatRow_forall {db : DB} {id : Nat} {f : Chat → Chat} {P : Chat → Prop}
    (hP : ∀ c ∈ db.chats, c.id = id → P (f c)) :
    ∀ c ∈ (updateChatRow db id f).chats, c.id = id → P c := by
  intro v hv hvid
  simp only [updateChatRow, List.mem_map] at hv
  obtain ⟨w, hw, hfw⟩ := hv
  by_cases hwid : w.id = id
  · simp [hwid] at hfw
    rw [← hfw]
    exact hP w hw hwid
  · simp [hwid] at hfw
    rw [← hfw] at hvid
    exact absurd hvid hwid

/-! ## Claim theorems -/

/-- C4: an upload whose file exceeds the configured maximum byte size is
rejected with the 400 FILE_TOO_LARGE client error before the upload
controller runs, so no Document row is created and the store is untouched. -/
theorem oversized_upload_rejected_before_controller
    (db : DB) (callerId chatId now : Nat) (f : UploadedFile)
    (storeOk : Bool) (location : String)
    (h : f.size > multerFileSizeLimit) :
    uploadRoute db callerId f chatId storeOk location now =
      (.multerRejected ⟨"File size is too large.", 400, "FILE_TOO_LARGE"⟩, db) := by
  simp [uploadRoute, h, handleMulterError]

/-- C4 witness: a 15000001-byte file against the 15000000 limit -/
theorem oversized_upload_rejected_before_controller_witness :
    uploadRoute sampleDB 1 ⟨"big.pdf", "application/pdf", 15000001⟩ 1 true "loc" 5 =
      (.multerRejected ⟨"File size is too large.", 400, "FILE_TOO_LARGE"⟩, sampleDB) :=
  oversized_upload_rejected_before_controller sampleDB 1 1 5
    ⟨"big.pdf", "application/pdf", 15000001⟩ true "loc" (by decide)

/-- C7 counterexample: an expired token and a malformed token are rejected by
the required authentication middleware with the same INVALID_TOKEN code, so
the expired case carries no distinguishable error code as the claim states. -/
theorem expired_token_code_not_distinguishable :
    authenticate emptyDB (some .expired) = .reject 401 "INVALID_TOKEN" ∧
    authenticate emptyDB (some .malformed) = .reject 401 "INVALID_TOKEN" :=
  ⟨rfl, rfl⟩

/-- C7 (amended): the middleware distinguishes the no-token case (NO_TOKEN)
from every token-verification failure, but invalid and expired tokens both
yield INVALID_TOKEN because verifyAccessToken discards the jwt error class;
the global error handler's handleJWTError does map the two classes to
distinct codes but is not reached from this middleware.  On success the
resolved active user (id, email, isVerified among its fields) is attached. -/
theorem auth_codes_no_token_vs_verification_failure (db : DB) (p : JwtPayload) :
    authenticate db none = .reject 401 "NO_TOKEN" ∧
    authenticate db (some .malformed) = .reject 401 "INVALID_TOKEN" ∧
    authenticate db (some .expired) = .reject 401 "INVALID_TOKEN" ∧
    handleJWTError "JsonWebTokenError" =
      ⟨"Invalid authentication token.", 401, "INVALID_TOKEN"⟩ ∧
    handleJWTError "TokenExpiredError" =
      ⟨"Authentication token has expired.", 401, "TOKEN_EXPIRED"⟩ ∧
    (∀ u, findUserById db p.userId = some u → u.isActive = true →
      authenticate db (some (.valid p)) = .next (some u)) := by
  refine ⟨rfl, rfl, rfl, by decide, by decide, ?_⟩
  intro u hu ha
  simp [authenticate, verifyAccessToken, hu, ha]

/-- C8: optionalAuth never rejects: on every input it calls the next handler,
and it attaches an identity exactly when the token verifies to a payload that
resolves to an active user. -/
theorem optional_auth_always_continues (db : DB) (tok : Option VerifyOutcome) :
    (∃ i, optionalAuth db tok = .next i) ∧
    (∀ u, optionalAuth db tok = .next (some u) →
      ∃ p, tok = some (.valid p) ∧ findUserById db p.userId = some u ∧
        u.isActive = true) := by
  constructor
  · match tok with
    | none => exact ⟨none, rfl⟩
    | some .malformed => exact ⟨none, rfl⟩
    | some .expired => exact ⟨none, rfl⟩
    | some (.valid p) =>
      match hf : findUserById db p.userId with
      | none => exact ⟨none, by simp [optionalAuth, verifyAccessToken, hf]⟩
      | some u =>
        by_cases ha : u.isActive
        · exact ⟨some u, by simp [optionalAuth, verifyAccessToken, hf, ha]⟩
        · exact ⟨none, by simp [optionalAuth, verifyAccessToken, hf, ha]⟩
  · intro u hu
    match tok with
    | none => simp [optionalAuth] at hu
    | some .malformed => simp [optionalAuth, verifyAccessToken] at hu
    | some .expired => simp [optionalAuth, verifyAccessToken] at hu
    | some (.valid p) =>
      refine ⟨p, rfl, ?_⟩
      match hf : findUserById db p.userId with
      | none => simp [optionalAuth, verifyAccessToken, hf] at hu
      | some v =>
        by_cases ha : v.isActive
        · simp [optionalAuth, verifyAccessToken, hf, ha] at hu
          subst hu
          exact ⟨rfl, ha⟩
        · simp [optionalAuth, verifyAccessToken, hf, ha] at hu

/-- C1: every chat-targeting operation invoked with a chatId that does not
resolve to a chat owned by the caller answers not-found/forbidden and leaves
every persisted table unchanged (no Message, Document or Chat row created,
updated or deleted). -/
theorem chat_ops_unauthorized_no_mutation
    (db : DB) (callerId id : Nat) (content msgType prompt location : String)
    (ai : AIOutcome) (now : Nat) (status title state : Option String)
    (f : UploadedFile) (storeOk : Bool)
    (h : findFirstChat db id callerId = none)
    (hc : content ≠ "") (hp : prompt ≠ "") (hid : id ≠ 0) :
    sendMessage db callerId id content msgType ai now = (.notFound, db) ∧
    submitQuery db callerId id prompt ai now = (.notFound, db) ∧
    uploadFile db callerId (some f) id storeOk location now = (.forbidden, db) ∧
    getChatMessages db callerId id = (.notFound, db) ∧
    updateChat db callerId id status title state now = (.notFound, db) ∧
    deleteChat db callerId id = (.notFound, db) := by
  refine ⟨?_, ?_, ?_, ?_, ?_, ?_⟩ <;>
    simp [sendMessage, submitQuery, uploadFile, getChatMessages, updateChat,
      deleteChat, h, hc, hp, hid]

/-- C1 witness: caller 2 against the chat owned by user 1 -/
theorem chat_ops_unauthorized_no_mutation_witness :
    sendMessage sampleDB 2 1 "hi" "REGULAR" (.failure "down") 5 = (.notFound, sampleDB) ∧
    submitQuery sampleDB 2 1 "q" (.failure "down") 5 = (.notFound, sampleDB) ∧
    uploadFile sampleDB 2 (some sampleFile) 1 true "loc" 5 = (.forbidden, sampleDB) ∧
    getChatMessages sampleDB 2 1 = (.notFound, sampleDB) ∧
    updateChat sampleDB 2 1 none none none 5 = (.notFound, sampleDB) ∧
    deleteChat sampleDB 2 1 = (.notFound, sampleDB) :=
  chat_ops_unauthorized_no_mutation sampleDB 2 1 "hi" "REGULAR" "q" "loc"
    (.failure "down") 5 none none none sampleFile true
    (by decide) (by decide) (by decide) (by decide)

/-- C5: when the ownership check of the upload orchestrator fails after the
file has been written to its temporary path, the temporary file is unlinked
before the not-found answer returns, and no Document row is created; under
distinct paths on disk the rejected upload leaves no orphaned file. -/
theorem rejected_upload_unlinks_temp_file
    (st : PState) (callerId chatId : String) (f : PFile) (aiOk : Bool)
    (h : pFindFirstChat st chatId callerId = none) (hd : st.disk.Nodup) :
    (uploadDocumentAndTriggerWorkflow st callerId chatId (some f) aiOk).1 = .notFound ∧
    (uploadDocumentAndTriggerWorkflow st callerId chatId (some f) aiOk).2.disk
      = st.disk.erase f.path ∧
    f.path ∉ (uploadDocumentAndTriggerWorkflow st callerId chatId (some f) aiOk).2.disk ∧
    (uploadDocumentAndTriggerWorkflow st callerId chatId (some f) aiOk).2.documents
      = st.documents := by
  refine ⟨?_, ?_, ?_, ?_⟩ <;>
    simp [uploadDocumentAndTriggerWorkflow, h]
  exact hd.not_mem_erase

/-- C5 witness: an upload into a chat the caller does not own, with the file
already at its temporary path -/
theorem rejected_upload_unlinks_temp_file_witness :
    (uploadDocumentAndTriggerWorkflow samplePState "u2" "c1" (some samplePFile) true).1
      = .notFound ∧
    (uploadDocumentAndTriggerWorkflow samplePState "u2" "c1" (some samplePFile) true).2.disk
      = samplePState.disk.erase samplePFile.path ∧
    samplePFile.path ∉
      (uploadDocumentAndTriggerWorkflow samplePState "u2" "c1" (some samplePFile) true).2.disk ∧
    (uploadDocumentAndTriggerWorkflow samplePState "u2" "c1" (some samplePFile) true).2.documents
      = samplePState.documents :=
  rejected_upload_unlinks_temp_file samplePState "u2" "c1" samplePFile true
    (by decide) (by decide)

/-- C6: account deactivation never removes the User row: it clears isActive
and overwrites email/username with a deleted_-prefixed value, so when the
deactivated user was the unique holder of its email/username (and the unique
row with its id), no row holds the old email or username afterwards - the
identity is immediately free for a fresh registration. -/
theorem deactivation_soft_deletes_and_frees_identity
    (db : DB) (uid nowMs : Nat) (u : User)
    (hu : u ∈ db.users) (hid : u.id = uid)
    (hids : ∀ v ∈ db.users, v.id = uid → v = u)
    (hemail : ∀ v ∈ db.users, v.email = u.email → v.id = uid)
    (huser : ∀ v ∈ db.users, v.username = u.username → v.id = uid) :
    (deactivateAccount db uid nowMs).users.length = db.users.length ∧
    ({ u with
        isActive := false,
        email := "deleted_" ++ (toString nowMs ++ ("_" ++ u.email)),
        username := "deleted_" ++ (toString nowMs ++ ("_" ++ u.username)),
        updatedAt := nowMs } : User) ∈ (deactivateAccount db uid nowMs).users ∧
    (∀ v ∈ (deactivateAccount db uid nowMs).users, v.email ≠ u.email) ∧
    (∀ v ∈ (deactivateAccount db uid nowMs).users, v.username ≠ u.username) := by
  have hlen : ∀ s : String, ("deleted_" ++ (toString nowMs ++ ("_" ++ s))) ≠ s := by
    intro s hs
    have hcongr := congrArg String.length hs
    have h8 : ("deleted_" : String).length = 8 := rfl
    have h1 : ("_" : String).length = 1 := rfl
    simp [String.length_append, h8, h1] at hcongr
    omega
  refine ⟨by simp [deactivateAccount], ?_, ?_, ?_⟩
  · have := List.mem_map_of_mem (f := fun v : User =>
      if v.id == uid then
        { v with
            isActive := false,
            email := "deleted_" ++ (toString nowMs ++ ("_" ++ v.email)),
            username := "deleted_" ++ (toString nowMs ++ ("_" ++ v.username)),
            updatedAt := nowMs }
      else v) hu
    simpa [deactivateAccount, hid] using this
  · intro v hv
    simp only [deactivateAccount, List.mem_map] at hv
    obtain ⟨w, hw, hfw⟩ := hv
    by_cases hwid : w.id = uid
    · have hwu : w = u := hids w hw hwid
      rw [hwu] at hfw
      simp [hid] at hfw
      rw [← hfw]
      exact hlen u.email
    · simp [hwid] at hfw
      rw [← hfw]
      intro hve
      exact hwid (hemail w hw hve)
  · intro v hv
    simp only [deactivateAccount, List.mem_map] at hv
    obtain ⟨w, hw, hfw⟩ := hv
    by_cases hwid : w.id = uid
    · have hwu : w = u := hids w hw hwid
      rw [hwu] at hfw
      simp [hid] at hfw
      rw [← hfw]
      exact hlen u.username
    · simp [hwid] at hfw
      rw [← hfw]
      intro hve
      exact hwid (huser w hw hve)

/-- C6 witness: deactivating the sample account frees u@example.com and u1 -/
theorem deactivation_soft_deletes_and_frees_identity_witness :
    (deactivateAccount sampleDB 1 7).users.length = sampleDB.users.length ∧
    ({ sampleUser with
        isActive := false,
        email := "deleted_" ++ (toString 7 ++ ("_" ++ sampleUser.email)),
        username := "deleted_" ++ (toString 7 ++ ("_" ++ sampleUser.username)),
        updatedAt := 7 } : User) ∈ (deactivateAccount sampleDB 1 7).users ∧
    (∀ v ∈ (deactivateAccount sampleDB 1 7).users, v.email ≠ sampleUser.email) ∧
    (∀ v ∈ (deactivateAccount sampleDB 1 7).users, v.username ≠ sampleUser.username) :=
  deactivation_soft_deletes_and_frees_identity sampleDB 1 7 sampleUser
    (by decide) (by decide) (by decide) (by decide) (by decide)

/-- C2: a message-send whose preconditions hold (chat owned by the caller,
content non-empty) persists exactly one user-authored Message row, whatever
the AI client outcome - in the synchronous sendMessage and in the
fire-and-forget addMessage alike. -/
theorem send_message_one_user_row
    (db : DB) (callerId id : Nat) (content msgType : String)
    (ai : AIOutcome) (now : Nat) (c : Chat)
    (hc : content ≠ "") (h : findFirstChat db id callerId = some c)
    (st : PState) (pCallerId pChatId text : String) (pai : RestAIOutcome) (pc : PChat)
    (hp : pFindFirstChat st pChatId pCallerId = some pc) :
    userMessageCount (sendMessage db callerId id content msgType ai now).2 id
      = userMessageCount db id + 1 ∧
    pUserMessageCount (addMessage st pCallerId pChatId text pai).2 pChatId
      = pUserMessageCount st pChatId + 1 := by
  constructor
  · simp [sendMessage, hc, h, userMessageCount, createMessage, updateChatRow,
      List.filter_append]
  · cases pai <;>
      simp [addMessage, hp, pUserMessageCount, List.filter_append]

/-- C2 witness: one successful and one failing AI outcome at concrete inputs -/
theorem send_message_one_user_row_witness :
    userMessageCount (sendMessage sampleDB 1 1 "hi" "REGULAR" (.failure "down") 5).2 1
      = userMessageCount sampleDB 1 + 1 ∧
    pUserMessageCount (addMessage samplePState "u1" "c1" "hello" (.success "ok")).2 "c1"
      = pUserMessageCount samplePState "c1" + 1 :=
  send_message_one_user_row sampleDB 1 1 "hi" "REGULAR" (.failure "down") 5 sampleChat
    (by decide) (by decide) samplePState "u1" "c1" "hello" (.success "ok")
    ⟨"c1", "u1"⟩ (by decide)

/-- C3: when the AI client fails, exactly one assistant Message carrying the
fixed apology text is persisted in place of an answer, and the HTTP caller
sees a success result (ok / created), not an error: in the synchronous
revision the assistant row holds the fallback text, which starts with the
fixed apology sentence, and in the fire-and-forget revision the continuation
persists the fixed unavailable text. -/
theorem ai_failure_one_fallback_row
    (db : DB) (callerId id : Nat) (content msgType err : String) (now : Nat) (c : Chat)
    (hc : content ≠ "") (h : findFirstChat db id callerId = some c)
    (st : PState) (pCallerId pChatId text perr : String) (pc : PChat)
    (hp : pFindFirstChat st pChatId pCallerId = some pc) :
    (∃ rest, fallbackText (docsOfChat db id) err = apologyIntro ++ rest) ∧
    (sendMessage db callerId id content msgType (.failure err) now).1 =
      .ok ⟨id, "USER", content, msgType⟩
          ⟨id, "ASSISTANT", fallbackText (docsOfChat db id) err, "RESPONSE"⟩ ∧
    (sendMessage db callerId id content msgType (.failure err) now).2.messages =
      db.messages ++ [⟨id, "USER", content, msgType⟩,
        ⟨id, "ASSISTANT", fallbackText (docsOfChat db id) err, "RESPONSE"⟩] ∧
    (addMessage st pCallerId pChatId text (.failure perr)).1 =
      .created ⟨text, "user", pChatId⟩ ∧
    (addMessage st pCallerId pChatId text (.failure perr)).2.messages =
      st.messages ++ [⟨text, "user", pChatId⟩,
        ⟨fallbackUnavailable, "assistant", pChatId⟩] := by
  refine ⟨⟨_, rfl⟩, ?_, ?_, ?_, ?_⟩ <;>
    simp [sendMessage, addMessage, generateAIResponse, createMessage,
      updateChatRow, hc, h, hp]

/-- C3 witness: a transport failure at concrete inputs -/
theorem ai_failure_one_fallback_row_witness :
    (∃ rest, fallbackText (docsOfChat sampleDB 1) "timeout" = apologyIntro ++ rest) ∧
    (sendMessage sampleDB 1 1 "hi" "REGULAR" (.failure "timeout") 5).1 =
      .ok ⟨1, "USER", "hi", "REGULAR"⟩
          ⟨1, "ASSISTANT", fallbackText (docsOfChat sampleDB 1) "timeout", "RESPONSE"⟩ ∧
    (sendMessage sampleDB 1 1 "hi" "REGULAR" (.failure "timeout") 5).2.messages =
      sampleDB.messages ++ [⟨1, "USER", "hi", "REGULAR"⟩,
        ⟨1, "ASSISTANT", fallbackText (docsOfChat sampleDB 1) "timeout", "RESPONSE"⟩] ∧
    (addMessage samplePState "u1" "c1" "hello" (.failure "timeout")).1 =
      .created ⟨"hello", "user", "c1"⟩ ∧
    (addMessage samplePState "u1" "c1" "hello" (.failure "timeout")).2.messages =
      samplePState.messages ++ [⟨"hello", "user", "c1"⟩,
        ⟨fallbackUnavailable, "assistant", "c1"⟩] :=
  ai_failure_one_fallback_row sampleDB 1 1 "hi" "REGULAR" "timeout" 5 sampleChat
    (by decide) (by decide) samplePState "u1" "c1" "hello" "timeout"
    ⟨"c1", "u1"⟩ (by decide)

/-- C9: a successful sendMessage/submitQuery exchange on an owned chat
appends exactly two Messages (roles user then assistant), advances every row
of that chat to state CHAT and refreshes its updatedAt; a row of the chat
exists in the updated store. -/
theorem successful_exchange_two_rows_and_chat_state
    (db : DB) (callerId id : Nat) (content msgType prompt : String)
    (ai : AIOutcome) (now : Nat) (c : Chat)
    (hc : content ≠ "") (hq : prompt ≠ "")
    (h : findFirstChat db id callerId = some c) :
    (sendMessage db callerId id content msgType ai now).1 =
      .ok ⟨id, "USER", content, msgType⟩
          ⟨id, "ASSISTANT", generateAIResponse db ai id, "RESPONSE"⟩ ∧
    (sendMessage db callerId id content msgType ai now).2.messages =
      db.messages ++ [⟨id, "USER", content, msgType⟩,
        ⟨id, "ASSISTANT", generateAIResponse db ai id, "RESPONSE"⟩] ∧
    (∃ ch ∈ (sendMessage db callerId id content msgType ai now).2.chats,
      ch.id = id ∧ ch.state = "CHAT" ∧ ch.updatedAt = now) ∧
    (∀ ch ∈ (sendMessage db callerId id content msgType ai now).2.chats,
      ch.id = id → ch.state = "CHAT" ∧ ch.updatedAt = now) ∧
    (submitQuery db callerId id prompt ai now).1 =
      .ok ⟨id, "USER", prompt, "QUERY"⟩
          ⟨id, "ASSISTANT", generateAIResponse db ai id, "RESPONSE"⟩ ∧
    (submitQuery db callerId id prompt ai now).2.messages =
      db.messages ++ [⟨id, "USER", prompt, "QUERY"⟩,
        ⟨id, "ASSISTANT", generateAIResponse db ai id, "RESPONSE"⟩] ∧
    (∀ ch ∈ (submitQuery db callerId id prompt ai now).2.chats,
      ch.id = id → ch.state = "CHAT" ∧ ch.updatedAt = now) := by
  obtain ⟨hmem, hcid, -⟩ := findFirstChat_eq_some h
  have hs2 : sendMessage db callerId id content msgType ai now =
      (.ok ⟨id, "USER", content, msgType⟩
          ⟨id, "ASSISTANT", generateAIResponse db ai id, "RESPONSE"⟩,
        updateChatRow
          (createMessage (createMessage db ⟨id, "USER", content, msgType⟩)
            ⟨id, "ASSISTANT", generateAIResponse db ai id, "RESPONSE"⟩)
          id (fun ch => { ch with updatedAt := now, state := "CHAT" })) := by
    unfold sendMessage
    rw [if_neg hc, h]
    rfl
  have hq2 : submitQuery db callerId id prompt ai now =
      (.ok ⟨id, "USER", prompt, "QUERY"⟩
          ⟨id, "ASSISTANT", generateAIResponse db ai id, "RESPONSE"⟩,
        updateChatRow
          (createMessage (createMessage db ⟨id, "USER", prompt, "QUERY"⟩)
            ⟨id, "ASSISTANT", generateAIResponse db ai id, "RESPONSE"⟩)
          id (fun ch => { ch with updatedAt := now, state := "CHAT" })) := by
    unfold submitQuery
    rw [if_neg hq, h]
    rfl
  refine ⟨by rw [hs2], ?_, ?_, ?_, by rw [hq2], ?_, ?_⟩
  · rw [hs2]
    simp [updateChatRow, createMessage]
  · rw [hs2]
    exact ⟨{ c with updatedAt := now, state := "CHAT" },
      updateChatRow_mem hmem hcid, hcid, rfl, rfl⟩
  · rw [hs2]
    exact updateChatRow_forall (fun ch _ _ => ⟨rfl, rfl⟩)
  · rw [hq2]
    simp [updateChatRow, createMessage]
  · rw [hq2]
    exact updateChatRow_forall (fun ch _ _ => ⟨rfl, rfl⟩)

/-- C9 witness: the mocked exchange on an owned chat in state UPLOAD -/
theorem successful_exchange_two_rows_and_chat_state_witness :
    (sendMessage sampleDB 1 1 "summarize" "REGULAR" (.success ⟨"ok", [], none⟩) 5).1 =
      .ok ⟨1, "USER", "summarize", "REGULAR"⟩
          ⟨1, "ASSISTANT", generateAIResponse sampleDB (.success ⟨"ok", [], none⟩) 1, "RESPONSE"⟩ ∧
    (sendMessage sampleDB 1 1 "summarize" "REGULAR" (.success ⟨"ok", [], none⟩) 5).2.messages =
      sampleDB.messages ++ [⟨1, "USER", "summarize", "REGULAR"⟩,
        ⟨1, "ASSISTANT", generateAIResponse sampleDB (.success ⟨"ok", [], none⟩) 1, "RESPONSE"⟩] ∧
    (∃ ch ∈ (sendMessage sampleDB 1 1 "summarize" "REGULAR" (.success ⟨"ok", [], none⟩) 5).2.chats,
      ch.id = 1 ∧ ch.state = "CHAT" ∧ ch.updatedAt = 5) ∧
    (∀ ch ∈ (sendMessage sampleDB 1 1 "summarize" "REGULAR" (.success ⟨"ok", [], none⟩) 5).2.chats,
      ch.id = 1 → ch.state = "CHAT" ∧ ch.updatedAt = 5) ∧
    (submitQuery sampleDB 1 1 "q" (.success ⟨"ok", [], none⟩) 5).1 =
      .ok ⟨1, "USER", "q", "QUERY"⟩
          ⟨1, "ASSISTANT", generateAIResponse sampleDB (.success ⟨"ok", [], none⟩) 1, "RESPONSE"⟩ ∧
    (submitQuery sampleDB 1 1 "q" (.success ⟨"ok", [], none⟩) 5).2.messages =
      sampleDB.messages ++ [⟨1, "USER", "q", "QUERY"⟩,
        ⟨1, "ASSISTANT", generateAIResponse sampleDB (.success ⟨"ok", [], none⟩) 1, "RESPONSE"⟩] ∧
    (∀ ch ∈ (submitQuery sampleDB 1 1 "q" (.success ⟨"ok", [], none⟩) 5).2.chats,
      ch.id = 1 → ch.state = "CHAT" ∧ ch.updatedAt = 5) :=
  successful_exchange_two_rows_and_chat_state sampleDB 1 1 "summarize" "REGULAR" "q"
    (.success ⟨"ok", [], none⟩) 5 sampleChat (by decide) (by decide) (by decide)

/-- C10: in updateChat each absent-or-falsy field (none or the empty string)
keeps the stored value, each supplied truthy field overwrites it, updatedAt
is refreshed on every successful update, and a non-empty title can never be
cleared to the empty string. -/
theorem update_chat_falsy_fields_preserved
    (db : DB) (callerId id now : Nat) (c : Chat)
    (h : findFirstChat db id callerId = some c)
    (status title state : Option String) :
    ∃ c', updateChat db callerId id status title state now =
        (.ok c',
          { db with chats := db.chats.map (fun x => if x.id == id then c' else x) }) ∧
      ((status = none ∨ status = some "") → c'.status = c.status) ∧
      (∀ s, status = some s → s ≠ "" → c'.status = s) ∧
      ((title = none ∨ title = some "") → c'.title = c.title) ∧
      (∀ s, title = some s → s ≠ "" → c'.title = s) ∧
      (c.title ≠ "" → c'.title ≠ "") ∧
      ((state = none ∨ state = some "") → c'.state = c.state) ∧
      (∀ s, state = some s → s ≠ "" → c'.state = s) ∧
      c'.updatedAt = now ∧ c'.id = c.id ∧ c'.userId = c.userId := by
  refine ⟨⟨c.id, c.userId, jsOr title c.title, jsOr state c.state,
      jsOr status c.status, now⟩,
    ?_, ?_, ?_, ?_, ?_, ?_, ?_, ?_, rfl, rfl, rfl⟩
  · unfold updateChat
    rw [h]
  · rintro (rfl | rfl) <;> simp [jsOr]
  · rintro s rfl hs
    simp [jsOr, hs]
  · rintro (rfl | rfl) <;> simp [jsOr]
  · rintro s rfl hs
    simp [jsOr, hs]
  · intro hct
    rcases title with _ | s
    · exact hct
    · by_cases hs : s = ""
      · simpa [jsOr, hs] using hct
      · simp [jsOr, hs]
  · rintro (rfl | rfl) <;> simp [jsOr]
  · rintro s rfl hs
    simp [jsOr, hs]

/-- C10 witness: status supplied, title supplied empty, state absent -/
theorem update_chat_falsy_fields_preserved_witness :
    ∃ c', updateChat sampleDB 1 1 (some "STARRED") (some "") none 9 =
        (.ok c',
          { sampleDB with
              chats := sampleDB.chats.map (fun x => if x.id == 1 then c' else x) }) ∧
      (((some "STARRED" : Option String) = none ∨ (some "STARRED" : Option String) = some "") →
        c'.status = sampleChat.status) ∧
      (∀ s, (some "STARRED" : Option String) = some s → s ≠ "" → c'.status = s) ∧
      (((some "" : Option String) = none ∨ (some "" : Option String) = some "") →
        c'.title = sampleChat.title) ∧
      (∀ s, (some "" : Option String) = some s → s ≠ "" → c'.title = s) ∧
      (sampleChat.title ≠ "" → c'.title ≠ "") ∧
      (((none : Option String) = none ∨ (none : Option String) = some "") →
        c'.state = sampleChat.state) ∧
      (∀ s, (none : Option String) = some s → s ≠ "" → c'.state = s) ∧
      c'.updatedAt = 9 ∧ c'.id = sampleChat.id ∧ c'.userId = sampleChat.userId :=
  update_chat_falsy_fields_preserved sampleDB 1 1 9 sampleChat (by decide)
    (some "STARRED") (some "") none

end Oracyn
